import Mathlib

/-!
Verification of the `image-cropper` widget (`src/src/App.tsx`).

The repository is a single React component. Its logic splits into
pure pieces that we embed shallowly over `ℚ` (JavaScript numbers on the
values that occur here are exact on the rationals involved):

* the face-guided crop geometry of `onImageLoad` (lines 109-138);
* the surrounding pipeline which hands the raw rectangle to the external
  `react-image-crop` helpers `makeAspectCrop`/`centerCrop` (kept abstract as
  an adjustment function `adj`, since that library is an external
  collaborator whose code is not part of this repository);
* the export arithmetic of `downloadCroppedImage` (lines 177-211);
* the state shell: `handleCancel`, `handleFile`, `onSelectFile`,
  `handleDrop`, and the detection-completion state update.
-/

namespace ImageCropper

/-- Face bounding box in image pixel coordinates, as returned by the external
detector (`face.box` in the source). -/
structure FaceBox where
  x : ℚ
  y : ℚ
  width : ℚ
  height : ℚ
deriving DecidableEq

/-- Percent-unit crop rectangle (the `Crop` of `react-image-crop` with
`unit: '%'`): all four fields are percentages of the image dimensions. -/
structure Crop where
  x : ℚ
  y : ℚ
  width : ℚ
  height : ℚ
deriving DecidableEq

/-- Pixel-unit crop rectangle in the displayed image's coordinate space
(the `PixelCrop` committed by `onComplete`). -/
structure PixelCrop where
  x : ℚ
  y : ℚ
  width : ℚ
  height : ℚ
deriving DecidableEq

/-- The fields of the `<img>` element the component reads: `naturalWidth` /
`naturalHeight` are the original file's resolution, `width` / `height` the
displayed (rendered) size. -/
structure ImgElement where
  naturalWidth : ℚ
  naturalHeight : ℚ
  width : ℚ
  height : ℚ
deriving DecidableEq

/-- Face-guided crop geometry, lines 109-138 of `App.tsx`: the raw
percent-unit rectangle computed before it is handed to the external
`makeAspectCrop`/`centerCrop` helpers.  When no detection is available the
defaults `x=5, y=5, width=90, height=90` are kept unchanged; when a face is
present the size is chosen by the aspect-specific rule, the rectangle is
centered on the face, and each origin is clamped with
`max(0, min(origin, 100 - size))`. -/
def computeFaceCrop (face? : Option FaceBox) (aspect W H : ℚ) : Crop :=
  match face? with
  | none => { x := 5, y := 5, width := 90, height := 90 }
  | some face =>
    let faceWidth := face.width / W * 100
    let faceHeight := face.height / H * 100
    let cropWidth :=
      if aspect = 1 then max faceWidth faceHeight * (3 / 2)
      else if aspect = 4 / 5 then faceWidth * (3 / 2)
      else if aspect = 16 / 9 then faceHeight * (3 / 2) * (16 / 9)
      else 90
    let cropHeight :=
      if aspect = 1 then max faceWidth faceHeight * (3 / 2)
      else if aspect = 4 / 5 then faceWidth * (3 / 2) * (5 / 4)
      else if aspect = 16 / 9 then faceHeight * (3 / 2)
      else 90
    let cropX := face.x / W * 100 - (cropWidth - faceWidth) / 2
    let cropY := face.y / H * 100 - (cropHeight - faceHeight) / 2
    { x := max 0 (min cropX (100 - cropWidth))
      y := max 0 (min cropY (100 - cropHeight))
      width := cropWidth
      height := cropHeight }

/-- Outcome of the awaited `detectAllFaces` call: either it threw
(`Except.error`) or it returned a (possibly empty) list of detections. -/
abbrev Detection := Except Unit (List FaceBox)

/-- Crop pipeline of `onImageLoad` (lines 103-172): on success the raw
geometry of the first detection (or the 5/5/90/90 defaults when the list is
empty) is passed to the external aspect adjustment (`makeAspectCrop` then
`centerCrop`, abstracted as `adj`); when the detection call throws, the catch
branch passes the same 5/5/90/90 fallback to the same adjustment. -/
def cropPipeline (adj : Crop → ℚ → ℚ → ℚ → Crop) (det : Detection)
    (aspect W H : ℚ) : Crop :=
  match det with
  | .error _ => adj { x := 5, y := 5, width := 90, height := 90 } aspect W H
  | .ok dets => adj (computeFaceCrop dets.head? aspect W H) aspect W H

end ImageCropper

namespace ImageCropper

/-- UI state held by the component: `imgSrc`, `crop`, `completedCrop`,
`aspect`, `isLoading`, `isDragging` (lines 9-15). -/
structure AppState where
  imgSrc : String
  crop : Option Crop
  completedCrop : Option PixelCrop
  aspect : ℚ
  isLoading : Bool
  isDragging : Bool
deriving DecidableEq

/-- Initial state of the `useState` hooks: empty image source, no crop,
no committed crop, aspect `1`, not loading, not dragging. -/
def initialState : AppState :=
  { imgSrc := "", crop := none, completedCrop := none, aspect := 1,
    isLoading := false, isDragging := false }

/-- Cancel handler, lines 93-97: clears the image source, the live crop and
the committed crop.  (It touches nothing else.) -/
def handleCancel (s : AppState) : AppState :=
  { s with imgSrc := "", crop := none, completedCrop := none }

/-- Start of `onImageLoad` (line 101): the loading flag is raised before the
detection call is awaited. -/
def onImageLoadStart (s : AppState) : AppState :=
  { s with isLoading := true }

/-- Completion of `onImageLoad` (lines 103-174): whatever the awaited
detection produced, a crop is computed through `cropPipeline` with the
aspect captured by the callback, stored with `setCrop`, and the loading flag
is cleared.  There is no guard comparing the current image to the one the
detection was started for. -/
def onImageLoadFinish (adj : Crop → ℚ → ℚ → ℚ → Crop) (det : Detection)
    (W H : ℚ) (s : AppState) : AppState :=
  { s with crop := some (cropPipeline adj det s.aspect W H),
           isLoading := false }

/-- A user-supplied file: its declared content type and its bytes. -/
structure DataFile where
  type : String
  content : String
deriving DecidableEq

/-- File intake, lines 49-57: if the declared content type starts with
`image/` (the source's `file.type.startsWith('image/')`, rendered here as a
character-list check so it evaluates in the kernel), a `FileReader`
decode is started whose load event stores the data URL into `imgSrc`;
otherwise nothing happens.  `read` stands for the browser's
file-to-data-URL decoding; the boolean records whether a decode was
started. -/
def handleFile (read : DataFile → String) (f : DataFile) (s : AppState) :
    AppState × Bool :=
  if "image/".toList.isPrefixOf f.type.toList then
    ({ s with imgSrc := read f }, true)
  else (s, false)

/-- Picker handler, lines 59-63: when the selection is nonempty, only
`files[0]` is handed to `handleFile`. -/
def onSelectFile (read : DataFile → String) (files : List DataFile)
    (s : AppState) : AppState × Bool :=
  match files with
  | f :: _ => handleFile read f s
  | [] => (s, false)

/-- Drop handler, lines 82-91: the drag-hover flag is cleared, then, when the
dropped list is nonempty, only `files[0]` is handed to `handleFile`. -/
def handleDrop (read : DataFile → String) (files : List DataFile)
    (s : AppState) : AppState × Bool :=
  let s1 := { s with isDragging := false }
  match files with
  | f :: _ => handleFile read f s1
  | [] => (s1, false)

/-- Draw-and-resize call issued by `downloadCroppedImage` (lines 180-200):
canvas size, source rectangle (in natural-image pixels) and destination
rectangle of the single `drawImage` call. -/
structure DrawCall where
  canvasWidth : ℚ
  canvasHeight : ℚ
  sx : ℚ
  sy : ℚ
  sw : ℚ
  sh : ℚ
  dx : ℚ
  dy : ℚ
  dw : ℚ
  dh : ℚ
deriving DecidableEq

/-- Export, lines 177-200: a no-op unless an image element and a committed
crop exist; otherwise the per-axis scale factors `natural / displayed` are
computed and the scaled crop region is drawn onto a canvas sized to the
committed crop's (displayed-pixel) dimensions. -/
def downloadCroppedImage (img? : Option ImgElement)
    (completedCrop? : Option PixelCrop) : Option DrawCall :=
  match img?, completedCrop? with
  | some img, some c =>
    let scaleX := img.naturalWidth / img.width
    let scaleY := img.naturalHeight / img.height
    some { canvasWidth := c.width, canvasHeight := c.height,
           sx := c.x * scaleX, sy := c.y * scaleY,
           sw := c.width * scaleX, sh := c.height * scaleY,
           dx := 0, dy := 0, dw := c.width, dh := c.height }
  | _, _ => none

/-- Call the aspect-change effect (lines 21-38) makes to the external
adjustment helpers: the rectangle, the aspect, and the container dimensions
it passes. -/
structure AdjustCall where
  rect : Crop
  aspect : ℚ
  containerWidth : ℚ
  containerHeight : ℚ
deriving DecidableEq

/-- Aspect-change effect, lines 21-38: it reads `{ width, height }` off the
image element — the displayed (rendered) size — and passes the 5/5/90/90
rectangle, the new aspect and those dimensions to the external
`makeAspectCrop`/`centerCrop`. -/
def aspectEffectCall (aspect : ℚ) (el : ImgElement) : AdjustCall :=
  { rect := { x := 5, y := 5, width := 90, height := 90 },
    aspect := aspect, containerWidth := el.width,
    containerHeight := el.height }

/-- Modelled from the spec: "Changing it triggers recomputation of the crop
rectangle against the currently loaded image's natural dimensions" — the
same call but with the element's natural (original-file) dimensions as the
container. -/
def aspectEffectCallSpec (aspect : ℚ) (el : ImgElement) : AdjustCall :=
  { rect := { x := 5, y := 5, width := 90, height := 90 },
    aspect := aspect, containerWidth := el.naturalWidth,
    containerHeight := el.naturalHeight }

end ImageCropper

namespace ImageCropper

/-- Clamping `max 0 (min c (100 - s))` keeps the rectangle inside `[0,100]`
provided the size `s` itself fits, i.e. `s ≤ 100`. -/
theorem clamp_le (c s : ℚ) (hs : s ≤ 100) :
    max 0 (min c (100 - s)) + s ≤ 100 := by
  have h1 : max 0 (min c (100 - s)) ≤ 100 - s :=
    max_le (by linarith) (min_le_right _ _)
  linarith

/-- C1, counterexample: for the 1000×1000 image and the face box
`{x:0, y:0, width:700, height:700}` — fully inside the image bounds — the
face-guided geometry at aspect `1` produces the crop `{0, 0, 105, 105}`,
and `x + width = 105 > 100`: the clamp cannot restore the bound once the
computed size exceeds 100. -/
theorem C1_counterexample :
    computeFaceCrop (some ⟨0, 0, 700, 700⟩) 1 1000 1000 = ⟨0, 0, 105, 105⟩ ∧
    ¬ ((computeFaceCrop (some ⟨0, 0, 700, 700⟩) 1 1000 1000).x +
        (computeFaceCrop (some ⟨0, 0, 700, 700⟩) 1 1000 1000).width ≤ 100) := by
  have h : computeFaceCrop (some ⟨0, 0, 700, 700⟩) 1 1000 1000 =
      ⟨0, 0, 105, 105⟩ := by
    simp [computeFaceCrop, min_def, max_def]
    norm_num
  refine ⟨h, ?_⟩
  rw [h]
  norm_num

/-- C1, amended: for every image with positive dimensions and every FaceBox
fully inside the bounds, the raw face-guided crop satisfies `0 ≤ x` and
`0 ≤ y` unconditionally, and `x + width ≤ 100` (resp. `y + height ≤ 100`)
whenever the computed width (resp. height) is at most 100. -/
theorem C1_inBounds (W H : ℚ) (hW : 0 < W) (hH : 0 < H) (fb : FaceBox)
    (hx : 0 ≤ fb.x) (hy : 0 ≤ fb.y) (hw : 0 < fb.width) (hh : 0 < fb.height)
    (hxW : fb.x + fb.width ≤ W) (hyH : fb.y + fb.height ≤ H) (aspect : ℚ) :
    0 ≤ (computeFaceCrop (some fb) aspect W H).x ∧
    0 ≤ (computeFaceCrop (some fb) aspect W H).y ∧
    ((computeFaceCrop (some fb) aspect W H).width ≤ 100 →
      (computeFaceCrop (some fb) aspect W H).x +
        (computeFaceCrop (some fb) aspect W H).width ≤ 100) ∧
    ((computeFaceCrop (some fb) aspect W H).height ≤ 100 →
      (computeFaceCrop (some fb) aspect W H).y +
        (computeFaceCrop (some fb) aspect W H).height ≤ 100) := by
  simp only [computeFaceCrop]
  exact ⟨le_max_left _ _, le_max_left _ _,
    fun h => clamp_le _ _ h, fun h => clamp_le _ _ h⟩

/-- C1, witness: the amended in-bounds statement instantiated at the
1000×1000 image, face `{100,100,100,100}` and aspect `1`. -/
theorem C1_inBounds_witness :
    (0:ℚ) < 1000 ∧
    (0 ≤ (computeFaceCrop (some ⟨100, 100, 100, 100⟩) 1 1000 1000).x ∧
    0 ≤ (computeFaceCrop (some ⟨100, 100, 100, 100⟩) 1 1000 1000).y ∧
    ((computeFaceCrop (some ⟨100, 100, 100, 100⟩) 1 1000 1000).width ≤ 100 →
      (computeFaceCrop (some ⟨100, 100, 100, 100⟩) 1 1000 1000).x +
        (computeFaceCrop (some ⟨100, 100, 100, 100⟩) 1 1000 1000).width ≤ 100) ∧
    ((computeFaceCrop (some ⟨100, 100, 100, 100⟩) 1 1000 1000).height ≤ 100 →
      (computeFaceCrop (some ⟨100, 100, 100, 100⟩) 1 1000 1000).y +
        (computeFaceCrop (some ⟨100, 100, 100, 100⟩) 1 1000 1000).height ≤ 100)) :=
  ⟨by norm_num,
    C1_inBounds 1000 1000 (by norm_num) (by norm_num) ⟨100, 100, 100, 100⟩
      (by norm_num) (by norm_num) (by norm_num) (by norm_num)
      (by norm_num) (by norm_num) 1⟩

end ImageCropper

namespace ImageCropper

/-- C2, counterexample: at aspect `4:5` with face box
`{x:0, y:0, width:100, height:200}` inside a 1000×1000 image, the face's
percentage height (20) is larger than its percentage width (10), yet the
computed crop width is `10 × 1.5 = 15`, not `20 × 1.5 = 30`: the 4:5 path
sizes from the face width, not from the larger of the two dimensions. -/
theorem C2_counterexample :
    (computeFaceCrop (some ⟨0, 0, 100, 200⟩) (4 / 5) 1000 1000).width = 15 ∧
    max ((100 : ℚ) / 1000 * 100) ((200 : ℚ) / 1000 * 100) * (3 / 2) = 30 ∧
    (15 : ℚ) ≠ 30 := by
  refine ⟨?_, by norm_num [max_def], by norm_num⟩
  norm_num [computeFaceCrop, min_def, max_def]

/-- C2, amended: the face-path size rule is aspect-specific — at `1:1` both
dimensions are `max(faceWidth%, faceHeight%) × 1.5`; at `4:5` the width is
`faceWidth% × 1.5` and the height is derived as `width × 5/4`; at `16:9`
the height is `faceHeight% × 1.5` and the width is derived as
`height × 16/9`.  The concrete scenario holds: on a 1000×1000 image with
face `{100,100,100,100}` and aspect `1`, the crop is width = height = 15
with origin `7.5 ∈ [0, 85]` on both axes. -/
theorem faceCrop_one_width (fb : FaceBox) (W H : ℚ) :
    (computeFaceCrop (some fb) 1 W H).width =
      max (fb.width / W * 100) (fb.height / H * 100) * (3 / 2) := by
  simp [computeFaceCrop]

theorem faceCrop_one_height (fb : FaceBox) (W H : ℚ) :
    (computeFaceCrop (some fb) 1 W H).height =
      max (fb.width / W * 100) (fb.height / H * 100) * (3 / 2) := by
  simp [computeFaceCrop]

theorem faceCrop_45_width (fb : FaceBox) (W H : ℚ) :
    (computeFaceCrop (some fb) (4 / 5) W H).width =
      fb.width / W * 100 * (3 / 2) := by
  have h1 : ¬ ((4 : ℚ) / 5 = 1) := by norm_num
  simp [computeFaceCrop, h1]

theorem faceCrop_45_height (fb : FaceBox) (W H : ℚ) :
    (computeFaceCrop (some fb) (4 / 5) W H).height =
      fb.width / W * 100 * (3 / 2) * (5 / 4) := by
  have h1 : ¬ ((4 : ℚ) / 5 = 1) := by norm_num
  simp [computeFaceCrop, h1]

theorem faceCrop_169_width (fb : FaceBox) (W H : ℚ) :
    (computeFaceCrop (some fb) (16 / 9) W H).width =
      fb.height / H * 100 * (3 / 2) * (16 / 9) := by
  have h1 : ¬ ((16 : ℚ) / 9 = 1) := by norm_num
  have h2 : ¬ ((16 : ℚ) / 9 = 4 / 5) := by norm_num
  simp [computeFaceCrop, h1, h2]

theorem faceCrop_169_height (fb : FaceBox) (W H : ℚ) :
    (computeFaceCrop (some fb) (16 / 9) W H).height =
      fb.height / H * 100 * (3 / 2) := by
  have h1 : ¬ ((16 : ℚ) / 9 = 1) := by norm_num
  have h2 : ¬ ((16 : ℚ) / 9 = 4 / 5) := by norm_num
  simp [computeFaceCrop, h1, h2]

theorem C2_sizeRules (W H : ℚ) (fb : FaceBox) :
    ((computeFaceCrop (some fb) 1 W H).width =
        max (fb.width / W * 100) (fb.height / H * 100) * (3 / 2) ∧
      (computeFaceCrop (some fb) 1 W H).height =
        (computeFaceCrop (some fb) 1 W H).width) ∧
    ((computeFaceCrop (some fb) (4 / 5) W H).width =
        fb.width / W * 100 * (3 / 2) ∧
      (computeFaceCrop (some fb) (4 / 5) W H).height =
        (computeFaceCrop (some fb) (4 / 5) W H).width * (5 / 4)) ∧
    ((computeFaceCrop (some fb) (16 / 9) W H).height =
        fb.height / H * 100 * (3 / 2) ∧
      (computeFaceCrop (some fb) (16 / 9) W H).width =
        (computeFaceCrop (some fb) (16 / 9) W H).height * (16 / 9)) ∧
    (computeFaceCrop (some ⟨100, 100, 100, 100⟩) 1 1000 1000 =
        ⟨15 / 2, 15 / 2, 15, 15⟩ ∧
      (0 : ℚ) ≤ 15 / 2 ∧ (15 / 2 : ℚ) ≤ 85) := by
  refine ⟨⟨faceCrop_one_width fb W H,
      (faceCrop_one_height fb W H).trans (faceCrop_one_width fb W H).symm⟩,
    ⟨faceCrop_45_width fb W H, ?_⟩, ⟨faceCrop_169_height fb W H, ?_⟩,
    ?_, by norm_num, by norm_num⟩
  · rw [faceCrop_45_height, faceCrop_45_width]
  · rw [faceCrop_169_width, faceCrop_169_height]
  · simp [computeFaceCrop, min_def, max_def]
    norm_num

/-- C3, counterexample: with no face detected and aspect `4:5`, the raw crop
stays at width = height = 90, whose ratio is `1`, not `4/5`. -/
theorem C3_counterexample :
    (computeFaceCrop none (4 / 5) 1000 1000).width /
      (computeFaceCrop none (4 / 5) 1000 1000).height = 1 ∧
    ¬ ((computeFaceCrop none (4 / 5) 1000 1000).width /
        (computeFaceCrop none (4 / 5) 1000 1000).height = 4 / 5) := by
  norm_num [computeFaceCrop]

/-- C3, amended: when a face with positive dimensions is present in an image
with positive dimensions and the aspect choice is one of `1`, `4/5`, `16/9`,
the raw computed crop has positive height and its width equals
`aspect × height`, i.e. the width/height ratio equals the active aspect. -/
theorem C3_aspectRatio (W H : ℚ) (hW : 0 < W) (hH : 0 < H) (fb : FaceBox)
    (hw : 0 < fb.width) (hh : 0 < fb.height) (aspect : ℚ)
    (ha : aspect = 1 ∨ aspect = 4 / 5 ∨ aspect = 16 / 9) :
    0 < (computeFaceCrop (some fb) aspect W H).height ∧
    (computeFaceCrop (some fb) aspect W H).width =
      aspect * (computeFaceCrop (some fb) aspect W H).height := by
  have hfw : 0 < fb.width / W * 100 := by positivity
  have hfh : 0 < fb.height / H * 100 := by positivity
  have h32 : (0 : ℚ) < 3 / 2 := by norm_num
  rcases ha with h | h | h <;> subst h
  · refine ⟨?_, ?_⟩
    · rw [faceCrop_one_height]
      exact mul_pos (lt_max_iff.mpr (Or.inl hfw)) h32
    · rw [faceCrop_one_width, faceCrop_one_height, one_mul]
  · refine ⟨?_, ?_⟩
    · rw [faceCrop_45_height]
      exact mul_pos (mul_pos hfw h32) (by norm_num)
    · rw [faceCrop_45_width, faceCrop_45_height]
      ring
  · refine ⟨?_, ?_⟩
    · rw [faceCrop_169_height]
      exact mul_pos hfh h32
    · rw [faceCrop_169_width, faceCrop_169_height]
      ring

/-- C3, witness: the amended aspect-ratio statement at the 1000×1000 image,
face `{100,100,100,100}` and aspect `1`. -/
theorem C3_aspectRatio_witness :
    ((0 : ℚ) < 1000 ∧ ((1 : ℚ) = 1 ∨ (1 : ℚ) = 4 / 5 ∨ (1 : ℚ) = 16 / 9)) ∧
    (0 < (computeFaceCrop (some ⟨100, 100, 100, 100⟩) 1 1000 1000).height ∧
      (computeFaceCrop (some ⟨100, 100, 100, 100⟩) 1 1000 1000).width =
        1 * (computeFaceCrop (some ⟨100, 100, 100, 100⟩) 1 1000 1000).height) :=
  ⟨⟨by norm_num, Or.inl rfl⟩,
    C3_aspectRatio 1000 1000 (by norm_num) (by norm_num) ⟨100, 100, 100, 100⟩
      (by norm_num) (by norm_num) 1 (Or.inl rfl)⟩

/-- C4: whether the detector throws or returns zero detections, the crop
pipeline hands exactly the fallback `{x:5, y:5, width:90, height:90}` to the
aspect adjustment; the exception never escapes (the pipeline is a total
function into crops). -/
theorem C4_fallback (adj : Crop → ℚ → ℚ → ℚ → Crop) (aspect W H : ℚ) :
    cropPipeline adj (Except.error ()) aspect W H =
      adj { x := 5, y := 5, width := 90, height := 90 } aspect W H ∧
    cropPipeline adj (Except.ok []) aspect W H =
      adj { x := 5, y := 5, width := 90, height := 90 } aspect W H :=
  ⟨rfl, rfl⟩

/-- C5, counterexample: the committed crop `{10,10,50,50}` percent of the
200×200 displayed image is the pixel crop `{20,20,100,100}`; with the
400×400 natural image the export scales by 2 per axis, so the drawn source
region is `[40,40]–[240,240]`, not `[20,20]–[120,120]` as the scenario
claims (the output canvas is indeed 100×100). -/
theorem C5_counterexample :
    ((10 : ℚ) / 100 * 200 = 20 ∧ (50 : ℚ) / 100 * 200 = 100) ∧
    downloadCroppedImage (some ⟨400, 400, 200, 200⟩) (some ⟨20, 20, 100, 100⟩) =
      some ⟨100, 100, 40, 40, 200, 200, 0, 0, 100, 100⟩ ∧
    ¬ ((40 : ℚ) = 20 ∧ (40 : ℚ) + 200 = 120) := by
  refine ⟨⟨by norm_num, by norm_num⟩, ?_, by norm_num⟩
  norm_num [downloadCroppedImage]

/-- C5, amended: the export draws exactly the source region
`[c.x·scaleX, c.y·scaleY, c.width·scaleX, c.height·scaleY]` (per-axis scale
`natural/displayed`) into a canvas sized to the committed crop's displayed
pixel dimensions; in the stated scenario the output is exactly 100×100
pixels sourced from region `[40,40]–[240,240]` of the natural image. -/
theorem C5_export (el : ImgElement) (c : PixelCrop) :
    downloadCroppedImage (some el) (some c) =
      some { canvasWidth := c.width, canvasHeight := c.height,
             sx := c.x * (el.naturalWidth / el.width),
             sy := c.y * (el.naturalHeight / el.height),
             sw := c.width * (el.naturalWidth / el.width),
             sh := c.height * (el.naturalHeight / el.height),
             dx := 0, dy := 0, dw := c.width, dh := c.height } ∧
    downloadCroppedImage (some ⟨400, 400, 200, 200⟩) (some ⟨20, 20, 100, 100⟩) =
      some ⟨100, 100, 40, 40, 200, 200, 0, 0, 100, 100⟩ :=
  ⟨rfl, by norm_num [downloadCroppedImage]⟩

end ImageCropper

namespace ImageCropper

/-- C6, counterexample: start from a loaded state, cancel (crop becomes
`none`), then let the stale detection complete (identity stands in for the
external adjustment): the completion does set a crop rectangle — the crop
state is `some {5,5,90,90}`, not `none`.  There is no guard making the
stale completion a no-op. -/
theorem C6_counterexample :
    (handleCancel ⟨"img", none, none, 1, true, false⟩).crop = none ∧
    (onImageLoadFinish (fun r _ _ _ => r) (Except.ok []) 100 100
        (handleCancel ⟨"img", none, none, 1, true, false⟩)).crop =
      some ⟨5, 5, 90, 90⟩ ∧
    ¬ ((onImageLoadFinish (fun r _ _ _ => r) (Except.ok []) 100 100
        (handleCancel ⟨"img", none, none, 1, true, false⟩)).crop = none) := by
  refine ⟨rfl, rfl, ?_⟩
  simp [onImageLoadFinish]

/-- C6, amended: a stale detection completing after cancel does update
state — it stores a crop rectangle and clears the loading flag — but it
leaves the image source empty and the committed crop cleared, so no image
(and hence no crop surface) is displayed for the cancelled image. -/
theorem C6_staleCompletion (adj : Crop → ℚ → ℚ → ℚ → Crop) (det : Detection)
    (W H : ℚ) (s : AppState) :
    (onImageLoadFinish adj det W H (handleCancel s)).imgSrc = "" ∧
    (onImageLoadFinish adj det W H (handleCancel s)).crop =
      some (cropPipeline adj det s.aspect W H) ∧
    (onImageLoadFinish adj det W H (handleCancel s)).isLoading = false ∧
    (onImageLoadFinish adj det W H (handleCancel s)).completedCrop = none :=
  ⟨rfl, rfl, rfl, rfl⟩

/-- C7, counterexample: cancelling from a state with aspect `16:9` and the
loading flag raised leaves both at their old values — they are not reset to
the initial `1` and `false`. -/
theorem C7_counterexample :
    (handleCancel ⟨"img", some ⟨5, 5, 90, 90⟩, some ⟨1, 1, 2, 2⟩, 16 / 9,
        true, false⟩).aspect ≠ initialState.aspect ∧
    (handleCancel ⟨"img", some ⟨5, 5, 90, 90⟩, some ⟨1, 1, 2, 2⟩, 16 / 9,
        true, false⟩).isLoading ≠ initialState.isLoading := by
  refine ⟨?_, ?_⟩
  · norm_num [handleCancel, initialState]
  · simp [handleCancel, initialState]

/-- C7, amended: the cancel action clears the image source, the live crop
and the committed crop, and leaves the aspect choice, the loading flag and
the drag-hover flag untouched. -/
theorem C7_cancelEffect (s : AppState) :
    (handleCancel s).imgSrc = "" ∧ (handleCancel s).crop = none ∧
    (handleCancel s).completedCrop = none ∧
    (handleCancel s).aspect = s.aspect ∧
    (handleCancel s).isLoading = s.isLoading ∧
    (handleCancel s).isDragging = s.isDragging :=
  ⟨rfl, rfl, rfl, rfl, rfl, rfl⟩

/-- C8, counterexample: for an image with natural size 400×400 displayed at
200×100, the aspect-change effect passes the displayed dimensions 200×100 to
the external adjustment, not the natural 400×400 the spec names. -/
theorem C8_counterexample :
    (aspectEffectCall 1 ⟨400, 400, 200, 100⟩).containerWidth = 200 ∧
    (aspectEffectCallSpec 1 ⟨400, 400, 200, 100⟩).containerWidth = 400 ∧
    aspectEffectCall 1 ⟨400, 400, 200, 100⟩ ≠
      aspectEffectCallSpec 1 ⟨400, 400, 200, 100⟩ := by
  refine ⟨rfl, rfl, ?_⟩
  intro h
  have h2 := congrArg AdjustCall.containerWidth h
  norm_num [aspectEffectCall, aspectEffectCallSpec] at h2

/-- C8, amended: on an aspect change, the crop rectangle is recomputed
against the image element's displayed (rendered) dimensions; this coincides
with the spec's "natural dimensions" exactly when the image is displayed at
its natural size. -/
theorem C8_displayedDims (aspect : ℚ) (el : ImgElement)
    (h1 : el.width = el.naturalWidth) (h2 : el.height = el.naturalHeight) :
    aspectEffectCall aspect el = aspectEffectCallSpec aspect el := by
  simp [aspectEffectCall, aspectEffectCallSpec, h1, h2]

/-- C8, witness: the amended statement instantiated at an element displayed
at its natural 200×100 size. -/
theorem C8_displayedDims_witness :
    ((⟨200, 100, 200, 100⟩ : ImgElement).width =
      (⟨200, 100, 200, 100⟩ : ImgElement).naturalWidth) ∧
    aspectEffectCall 1 ⟨200, 100, 200, 100⟩ =
      aspectEffectCallSpec 1 ⟨200, 100, 200, 100⟩ :=
  ⟨rfl, C8_displayedDims 1 ⟨200, 100, 200, 100⟩ rfl rfl⟩

/-- C9, counterexample: dropping a single non-image file (`text/plain`)
while the drag-hover flag is raised does change state — the drop handler
clears the drag-hover flag — even though no image is set and no decode is
started. -/
theorem C9_counterexample :
    (handleDrop (fun g => g.content) [⟨"text/plain", "hello"⟩]
        ⟨"", none, none, 1, false, true⟩).1 ≠
      ⟨"", none, none, 1, false, true⟩ ∧
    (handleDrop (fun g => g.content) [⟨"text/plain", "hello"⟩]
        ⟨"", none, none, 1, false, true⟩).1 =
      ⟨"", none, none, 1, false, false⟩ ∧
    (handleDrop (fun g => g.content) [⟨"text/plain", "hello"⟩]
        ⟨"", none, none, 1, false, true⟩).2 = false := by
  refine ⟨?_, ?_, ?_⟩ <;> decide

/-- C9, amended: a file whose declared content type does not begin with
`image/` is silently ignored — `handleFile` makes no state change and
starts no decode; via the picker nothing changes at all; via drag-and-drop
the only change is that the transient drag-hover flag is cleared.  No error
is surfaced (the handlers have no error channel). -/
theorem C9_nonImageIgnored (read : DataFile → String) (f : DataFile)
    (rest : List DataFile) (s : AppState)
    (h : "image/".toList.isPrefixOf f.type.toList = false) :
    handleFile read f s = (s, false) ∧
    onSelectFile read (f :: rest) s = (s, false) ∧
    handleDrop read (f :: rest) s =
      ({ s with isDragging := false }, false) := by
  refine ⟨?_, ?_, ?_⟩ <;>
    simp only [handleFile, onSelectFile, handleDrop, h, Bool.false_eq_true,
      if_false, ite_false]

/-- C9, witness: the amended statement instantiated with a `text/plain`
file dropped on the initial state. -/
theorem C9_nonImageIgnored_witness :
    ("image/".toList.isPrefixOf "text/plain".toList = false) ∧
    (handleFile (fun g => g.content) ⟨"text/plain", "hello"⟩ initialState =
        (initialState, false) ∧
      onSelectFile (fun g => g.content) [⟨"text/plain", "hello"⟩]
          initialState = (initialState, false) ∧
      handleDrop (fun g => g.content) [⟨"text/plain", "hello"⟩] initialState =
        ({ initialState with isDragging := false }, false)) :=
  ⟨by decide,
    C9_nonImageIgnored (fun g => g.content) ⟨"text/plain", "hello"⟩ []
      initialState (by decide)⟩

/-- C10: when several files are supplied at once, only the first is
processed — both the drop handler and the picker handler give the same
result on `f :: rest` as on `[f]`, for every tail `rest`. -/
theorem C10_firstFileOnly (read : DataFile → String) (f : DataFile)
    (rest : List DataFile) (s : AppState) :
    handleDrop read (f :: rest) s = handleDrop read [f] s ∧
    onSelectFile read (f :: rest) s = onSelectFile read [f] s :=
  ⟨rfl, rfl⟩

end ImageCropper
